import Mathlib

/-!
Verification development for the gemini-images MCP server.

This file is a shallow embedding of the server's core modules:
the codec helpers (src/utils.js), the upstream adapter and its three
protocol strategies (src/api-client.js), the persistent session store
(the session module with durable storage), and the request orchestrator
(handleGenerateImage in the server entry point).  Machine numbers are
modelled with Nat/Int and JS floating point with rationals; fallible
code returns Option/Except; the mutable session maps become explicit
state passing over association lists.
-/

namespace GeminiImages

/-- An image result: base64 payload plus MIME type (ImageResult in src/api-client.js). -/
structure ImageResult where
  base64 : String
  mimeType : String

deriving instance DecidableEq, Repr for ImageResult

/-- Result of parsing a data URL (utils.js parseDataUrl). -/
structure DataUrl where
  mimeType : String
  base64 : String

deriving instance DecidableEq, Repr for DataUrl

/-- Computable model of the JS String.trim (whitespace stripped at both
ends), written over the character list so that proofs can evaluate it. -/
def jsTrim (s : String) : String :=
  String.mk (((s.toList.dropWhile Char.isWhitespace).reverse.dropWhile Char.isWhitespace).reverse)

/-- Computable model of String.toLowerCase. -/
def jsToLower (s : String) : String :=
  String.mk (s.toList.map Char.toLower)

/-- Computable model of String.startsWith, over the character lists. -/
def strStarts (s pre : String) : Bool :=
  pre.toList.isPrefixOf s.toList

/-- Embeds utils.js parseDataUrl: the regex matches "data:" then a nonempty
run of non-semicolon characters (the MIME type), then the literal ";base64,",
then a nonempty payload.  The trimmed MIME type falls back to
"application/octet-stream" when blank. -/
def parseDataUrl (s : String) : Option DataUrl :=
  if strStarts s "data:" then
    let rest := s.toList.drop 5
    let g1 := rest.takeWhile (fun c => c != ';')
    let t := rest.drop g1.length
    match t with
    | [] => none
    | _ :: t2 =>
      if g1 = [] then none
      else if "base64,".toList.isPrefixOf t2 then
        let g2 := t2.drop 7
        if g2 = [] then none
        else
          let mt := jsTrim (String.mk g1)
          some { mimeType := if mt = "" then "application/octet-stream" else mt
                 base64 := String.mk g2 }
      else none
  else none

/-- Embeds the utils.js helper that strips a data-URL prefix: the raw base64
when the string parses as a data URL, the input itself otherwise. -/
def stripDataUrl (s : String) : String :=
  match parseDataUrl s with
  | some p => p.base64
  | none => s

/-- Embeds utils.js extFromMime (fixed MIME-to-extension table, png default). -/
def extFromMime (mimeType : String) : String :=
  let mime := jsToLower mimeType
  if mime = "image/jpeg" ∨ mime = "image/jpg" then "jpg"
  else if mime = "image/webp" then "webp"
  else if mime = "image/gif" then "gif"
  else "png"

/-- The standard base64 alphabet, used to model Node's base64 codec. -/
def base64Chars : List Char :=
  "ABCDEFGHIJKLMNOPQRSTUVWXYZabcdefghijklmnopqrstuvwxyz0123456789+/".toList

/-- Index of a character in the base64 alphabet, none for non-alphabet characters. -/
def base64Index (c : Char) : Option Nat :=
  base64Chars.indexOf? c

/-- Character at a sextet position in the base64 alphabet. -/
def base64CharAt (n : Nat) : Char :=
  base64Chars.getD n 'A'

/-- Decoding groups of 6-bit values to bytes (a trailing single sextet is
dropped), modelling Node's lenient base64 decoder on alphabet characters. -/
def sextetsToBytes : List Nat → List Nat
  | a :: b :: c :: d :: rest =>
      (a * 4 + b / 16) :: ((b % 16) * 16 + c / 4) :: ((c % 4) * 64 + d) :: sextetsToBytes rest
  | [a, b] => [a * 4 + b / 16]
  | [a, b, c] => [a * 4 + b / 16, (b % 16) * 16 + c / 4]
  | _ => []

/-- Canonical base64 encoding of a byte list, with padding, modelling
Buffer.toString base64. -/
def bytesToBase64 : List Nat → List Char
  | b1 :: b2 :: b3 :: rest =>
      base64CharAt (b1 / 4) :: base64CharAt ((b1 % 4) * 16 + b2 / 16) ::
        base64CharAt ((b2 % 16) * 4 + b3 / 64) :: base64CharAt (b3 % 64) ::
        bytesToBase64 rest
  | [b1, b2] =>
      [base64CharAt (b1 / 4), base64CharAt ((b1 % 4) * 16 + b2 / 16),
       base64CharAt ((b2 % 16) * 4), '=']
  | [b1] =>
      [base64CharAt (b1 / 4), base64CharAt ((b1 % 4) * 16), '=', '=']
  | [] => []

/-- Embeds utils.js isValidBase64: nonempty after trim, the lenient decode is
nonempty, and re-encoding the decoded bytes reproduces the input minus
whitespace.  Node's decoder is modelled by keeping only alphabet characters
(whitespace, padding and other characters are skipped). -/
def isValidBase64 (s : String) : Bool :=
  if jsTrim s = "" then false
  else
    let decoded := sextetsToBytes (s.toList.filterMap base64Index)
    decide (0 < decoded.length) &&
      (bytesToBase64 decoded == s.toList.filter (fun c => !c.isWhitespace))

/-- Embeds utils.js clampInt over mathematical integers (the JS inputs here
are always finite). -/
def clampInt (value lo hi : Int) : Int := max lo (min hi value)

/-- Embeds utils.js parseIntOr; the callers in scope pass either a number or
a numeric string, modelled as an already-parsed optional integer. -/
def parseIntOr (value : Option Int) (fallback : Int) : Int := value.getD fallback

/-- Natural number denoted by a digit string (for the WxH size regex). -/
def digitsToNat (ds : List Char) : Nat :=
  ds.foldl (fun acc c => acc * 10 + (c.toNat - '0'.toNat)) 0

/-- The WxH regex of api-client.js sizeToAspectRatio: one or more digits,
a case-insensitive x, one or more digits, anchored at both ends. -/
def parseSizeWH (size : String) : Option (Nat × Nat) :=
  let cs := size.toList
  let ds := cs.takeWhile Char.isDigit
  let rest := cs.drop ds.length
  match rest with
  | x :: rest2 =>
    if (x = 'x' ∨ x = 'X') ∧ ds ≠ [] ∧ rest2 ≠ [] ∧ rest2.all Char.isDigit = true then
      some (digitsToNat ds, digitsToNat rest2)
    else none
  | [] => none

/-- The fixed aspect-ratio table of api-client.js sizeToAspectRatio, in
source order. -/
def ratioMap : List (ℚ × String) :=
  [(1, "1:1"), (16/9, "16:9"), (9/16, "9:16"), (4/3, "4:3"),
   (3/4, "3:4"), (3/2, "3:2"), (2/3, "2:3")]

/-- First entry of the table whose ratio is within the 0.1 tolerance of the
given ratio (the source's for-loop with early return). -/
def firstRatioMatch : List (ℚ × String) → ℚ → Option String
  | [], _ => none
  | (r, v) :: rest, ratio => if |ratio - r| < 1/10 then some v else firstRatioMatch rest ratio

/-- Embeds api-client.js sizeToAspectRatio.  JS floating point is modelled
with rationals; a zero height (JS Infinity or NaN ratio, matching no table
entry) is modelled by the rational convention w / 0 = 0, which likewise
matches no entry, so both give "1:1". -/
def sizeToAspectRatio (size : String) : String :=
  if size = "" then "1:1"
  else
    match parseSizeWH size with
    | none => "1:1"
    | some (w, h) =>
      let ratio : ℚ := (w : ℚ) / (h : ℚ)
      (firstRatioMatch ratioMap ratio).getD "1:1"

/-- JS truthiness of an optional string field: present and nonempty. -/
def optTruthy : Option String → Bool
  | some s => s != ""
  | none => false

/-- The JS idiom x-or-else-default on a string: the default replaces a missing
or empty value. -/
def strOr (s : Option String) (d : String) : String :=
  match s with
  | some s => if s = "" then d else s
  | none => d

/-- Typed upstream failures: an HttpError carrying the HTTP status, or the
plain Error thrown when a successful response yields zero images (the only
non-HTTP failure reachable in this model). -/
inductive UpstreamError where
  | httpError (status : Nat)
  | zeroImages

deriving instance DecidableEq, Repr for UpstreamError

deriving instance DecidableEq for Except

/-- An inline image payload in a response part (both the camelCase and the
snake_case spellings share this shape; mimeType stands for mime_type in the
snake_case variant). -/
structure InlineData where
  data : Option String := none
  mimeType : Option String := none

/-- A part of a Gemini native response candidate; the source checks the
camelCase field first, then the snake_case one. -/
structure GeminiPart where
  inlineData : Option InlineData := none
  inline_data : Option InlineData := none

/-- A Gemini response candidate (candidate.content.parts). -/
structure GeminiCandidate where
  parts : List GeminiPart := []

/-- A Gemini native generateContent response body. -/
structure GeminiResponse where
  candidates : List GeminiCandidate := []

/-- Embeds the per-part branch of api-client.js parseGeminiResponse. -/
def parseGeminiPart (part : GeminiPart) : List ImageResult :=
  if optTruthy (part.inlineData.bind InlineData.data) then
    [{ base64 := (part.inlineData.bind InlineData.data).getD ""
       mimeType := strOr (part.inlineData.bind InlineData.mimeType) "image/png" }]
  else if optTruthy (part.inline_data.bind InlineData.data) then
    [{ base64 := (part.inline_data.bind InlineData.data).getD ""
       mimeType := strOr (part.inline_data.bind InlineData.mimeType) "image/png" }]
  else []

/-- Embeds api-client.js parseGeminiResponse: scan all parts of all
candidates, in order. -/
def parseGeminiResponse (json : GeminiResponse) : List ImageResult :=
  json.candidates.flatMap (fun c => c.parts.flatMap parseGeminiPart)

/-- An item of the images/generations response data array. -/
structure ImagesApiItem where
  b64_json : Option String := none
  url : Option String := none

/-- Embeds the per-item loop body of api-client.js
generateImagesViaImagesApi: a nonempty b64_json wins, else a nonempty url is
fetched (the fetch oracle models fetchUrlAsBase64 succeeding). -/
def parseImagesApiItem (fetchUrl : String → ImageResult) (item : ImagesApiItem) :
    List ImageResult :=
  if (jsTrim (item.b64_json.getD "") != "") then
    let s := item.b64_json.getD ""
    [{ base64 := stripDataUrl s
       mimeType := match parseDataUrl s with | some p => p.mimeType | none => "image/png" }]
  else if (jsTrim (item.url.getD "") != "") then
    [fetchUrl (item.url.getD "")]
  else []

/-- The JSON-or-undefined value of the image_url field: absent, an object
with an optional url, or (in third-party proxy responses) a plain string. -/
inductive ImageUrlField where
  | absent
  | obj (url : Option String)
  | str (s : String)

/-- The value of image_url.url when image_url is an object carrying a url. -/
def imageUrlFieldUrl : ImageUrlField → Option String
  | ImageUrlField.obj (some u) => some u
  | _ => none

/-- An item of a chat-completions message content array. -/
structure ChatContentItem where
  inline_data : Option InlineData := none
  typ : Option String := none
  image_url : ImageUrlField := ImageUrlField.absent

/-- Embeds the content-array branch of parseOpenAICompatibleResponse:
inline_data first, else a type image_url item whose url is a data URL or an
http URL to fetch. -/
def parseChatContentItem (fetchUrl : String → ImageResult) (item : ChatContentItem) :
    List ImageResult :=
  if optTruthy (item.inline_data.bind InlineData.data) then
    [{ base64 := (item.inline_data.bind InlineData.data).getD ""
       mimeType := strOr (item.inline_data.bind InlineData.mimeType) "image/png" }]
  else if item.typ = some "image_url" ∧ optTruthy (imageUrlFieldUrl item.image_url) = true then
    let u := (imageUrlFieldUrl item.image_url).getD ""
    match parseDataUrl u with
    | some p => [{ base64 := p.base64, mimeType := p.mimeType }]
    | none => if strStarts u "http" then [fetchUrl u] else []
  else []

/-- An entry of a message-level images list in a third-party proxy response. -/
structure MessageImage where
  image_url : ImageUrlField := ImageUrlField.absent
  url : Option String := none
  imageUrl : Option String := none

/-- Embeds the alias chain image_url.url, url, imageUrl, image_url, empty
string, followed by the string-and-nonempty-trim guard; a non-string
resolution (image_url being an object without url reached last) is skipped. -/
def resolveMessageImageUrl (m : MessageImage) : Option String :=
  let v : Option String :=
    match imageUrlFieldUrl m.image_url with
    | some u => some u
    | none =>
      match m.url with
      | some u => some u
      | none =>
        match m.imageUrl with
        | some u => some u
        | none =>
          match m.image_url with
          | ImageUrlField.str s => some s
          | ImageUrlField.obj _ => none
          | ImageUrlField.absent => some ""
  match v with
  | some s => if jsTrim s = "" then none else some s
  | none => none

/-- Embeds the message-images branch of parseOpenAICompatibleResponse. -/
def parseMessageImage (fetchUrl : String → ImageResult) (m : MessageImage) :
    List ImageResult :=
  match resolveMessageImageUrl m with
  | none => []
  | some u =>
    match parseDataUrl u with
    | some p => [{ base64 := p.base64, mimeType := p.mimeType }]
    | none => if strStarts u "http" then [fetchUrl u] else []

/-- A chat-completions response message: an optional content array (a plain
string content is modelled as none, since only arrays are scanned) and an
optional message-level images list. -/
structure ChatMessage where
  contentItems : Option (List ChatContentItem) := none
  images : Option (List MessageImage) := none

/-- A chat-completions response choice. -/
structure ChatChoice where
  message : Option ChatMessage := none

/-- A chat-completions response body (the parser also scans a Gemini-shaped
candidates field on the same body). -/
structure ChatResponse where
  candidates : List GeminiCandidate := []
  choices : List ChatChoice := []

/-- Images extracted from one chat-completions choice. -/
def parseChatChoice (fetchUrl : String → ImageResult) (choice : ChatChoice) :
    List ImageResult :=
  match choice.message with
  | none => []
  | some msg =>
    (match msg.contentItems with
     | some items => items.flatMap (parseChatContentItem fetchUrl)
     | none => []) ++
    (match msg.images with
     | some imgs => imgs.flatMap (parseMessageImage fetchUrl)
     | none => [])

/-- Embeds api-client.js parseOpenAICompatibleResponse: the Gemini shape
first, then every choice, concatenating across all matching shapes. -/
def parseOpenAICompatibleResponse (fetchUrl : String → ImageResult)
    (json : ChatResponse) : List ImageResult :=
  parseGeminiResponse { candidates := json.candidates } ++
    json.choices.flatMap (parseChatChoice fetchUrl)

/-- An upstream HTTP exchange: a non-2xx status, or a parsed JSON body. -/
inductive HttpResponse (α : Type) where
  | fail (status : Nat)
  | ok (body : α)

/-- Embeds api-client.js generateImagesViaImagesApi: non-2xx throws an
HttpError with the status; a successful response with zero recognizable
images throws the distinct zero-images Error; otherwise all parsed images
are returned, untouched. -/
def generateImagesViaImagesApi (fetchUrl : String → ImageResult)
    (resp : HttpResponse (List ImagesApiItem)) : Except UpstreamError (List ImageResult) :=
  match resp with
  | HttpResponse.fail st => Except.error (UpstreamError.httpError st)
  | HttpResponse.ok data =>
    let images := data.flatMap (parseImagesApiItem fetchUrl)
    if images.length = 0 then Except.error UpstreamError.zeroImages
    else Except.ok images

/-- Embeds api-client.js generateImagesViaGeminiNative (response side). -/
def generateImagesViaGeminiNative (resp : HttpResponse GeminiResponse) :
    Except UpstreamError (List ImageResult) :=
  match resp with
  | HttpResponse.fail st => Except.error (UpstreamError.httpError st)
  | HttpResponse.ok json =>
    let images := parseGeminiResponse json
    if images.length = 0 then Except.error UpstreamError.zeroImages
    else Except.ok images

/-- Embeds api-client.js generateImagesViaChatCompletions (response side). -/
def generateImagesViaChatCompletions (fetchUrl : String → ImageResult)
    (resp : HttpResponse ChatResponse) : Except UpstreamError (List ImageResult) :=
  match resp with
  | HttpResponse.fail st => Except.error (UpstreamError.httpError st)
  | HttpResponse.ok json =>
    let images := parseOpenAICompatibleResponse fetchUrl json
    if images.length = 0 then Except.error UpstreamError.zeroImages
    else Except.ok images

/-- The three strategies as call streams: the images API is called at most
once; the other two may be called repeatedly, the argument being the call
index. -/
structure StrategyCalls where
  imagesApi : Except UpstreamError (List ImageResult)
  gemini : Nat → Except UpstreamError (List ImageResult)
  chat : Nat → Except UpstreamError (List ImageResult)

/-- Instrumentation: how many times each strategy was invoked. -/
structure CallCounts where
  imagesApiCalls : Nat
  geminiCalls : Nat
  chatCalls : Nat

deriving instance DecidableEq, Repr for CallCounts

/-- Embeds the loop of api-client.js generateMultiple, instrumented with the
call counter: at most count iterations, stopping as soon as the accumulated
images reach count, then truncating to count; a failed call aborts the loop
and propagates. -/
def generateMultipleAux (gen : Nat → Except UpstreamError (List ImageResult))
    (count : Nat) : Nat → Nat → List ImageResult →
    Except UpstreamError (List ImageResult) × Nat
  | 0, i, out => (Except.ok (out.take count), i)
  | fuel + 1, i, out =>
    match gen i with
    | Except.error e => (Except.error e, i + 1)
    | Except.ok batch =>
      if count ≤ (out ++ batch).length then (Except.ok ((out ++ batch).take count), i + 1)
      else generateMultipleAux gen count fuel (i + 1) (out ++ batch)

/-- Embeds api-client.js generateMultiple. -/
def generateMultiple (gen : Nat → Except UpstreamError (List ImageResult))
    (count : Nat) : Except UpstreamError (List ImageResult) × Nat :=
  generateMultipleAux gen count count 0 []

/-- The fallback-eligibility test of generateWithFallback: an HttpError whose
status is 404 or 400 (a zero-images Error is not an HttpError). -/
def fallbackEligible : UpstreamError → Bool
  | UpstreamError.httpError st => st == 404 || st == 400
  | UpstreamError.zeroImages => false

/-- Embeds api-client.js generateWithFallback: try the images API once; on an
eligible failure fall back to the Gemini native strategy, and on any failure
there fall back to chat completions; any other images-API failure propagates
immediately. -/
def generateWithFallback (s : StrategyCalls) (count : Nat) :
    Except UpstreamError (List ImageResult) × CallCounts :=
  match s.imagesApi with
  | Except.ok imgs => (Except.ok imgs, ⟨1, 0, 0⟩)
  | Except.error err =>
    if fallbackEligible err then
      match generateMultiple s.gemini count with
      | (Except.ok imgs, g) => (Except.ok imgs, ⟨1, g, 0⟩)
      | (Except.error _, g) =>
        ((generateMultiple s.chat count).1, ⟨1, g, (generateMultiple s.chat count).2⟩)
    else (Except.error err, ⟨1, 0, 0⟩)

/-- The clamped count computed at the top of generateImages. -/
def effectiveCount (n : Int) : Nat :=
  (clampInt (parseIntOr (some n) 1) 1 4).toNat

/-- Embeds api-client.js generateImages, the unified entry point: clamp the
count into 1..4, then dispatch on the configured mode. -/
def generateImages (mode : String) (s : StrategyCalls) (n : Int) :
    Except UpstreamError (List ImageResult) × CallCounts :=
  let count := effectiveCount n
  if mode = "gemini" then
    ((generateMultiple s.gemini count).1, ⟨0, (generateMultiple s.gemini count).2, 0⟩)
  else if mode = "openai" ∨ mode = "images" then
    (s.imagesApi, ⟨1, 0, 0⟩)
  else if mode = "auto" then
    generateWithFallback s count
  else
    ((generateMultiple s.chat count).1, ⟨0, 0, (generateMultiple s.chat count).2⟩)

/-- The full upstream behaviour an adapter run can observe: a fetch oracle
for follow-up URLs and the per-call HTTP responses of each strategy. -/
structure UpstreamResponses where
  fetchUrl : String → ImageResult
  imagesApi : HttpResponse (List ImagesApiItem)
  gemini : Nat → HttpResponse GeminiResponse
  chat : Nat → HttpResponse ChatResponse

/-- The strategy call streams induced by concrete upstream responses. -/
def strategyCallsOf (u : UpstreamResponses) : StrategyCalls where
  imagesApi := generateImagesViaImagesApi u.fetchUrl u.imagesApi
  gemini := fun i => generateImagesViaGeminiNative (u.gemini i)
  chat := fun i => generateImagesViaChatCompletions u.fetchUrl (u.chat i)

/-- generateImages run against concrete upstream responses. -/
def generateImagesFromResponses (mode : String) (u : UpstreamResponses) (n : Int) :
    Except UpstreamError (List ImageResult) × CallCounts :=
  generateImages mode (strategyCallsOf u) n

/-- A content part of a history message.  In memory a part is text or an
image_url part carrying a data URL; in a persisted record an image part may
instead carry the _imageRefKey marker written by extractMessageImages. -/
inductive ContentPart where
  | text (t : String)
  | image (url : String)
  | imageRef (key : String) (url : String)

deriving instance DecidableEq, Repr for ContentPart

/-- Message content: a plain string or a content-part array. -/
inductive MessageContent where
  | str (s : String)
  | parts (l : List ContentPart)

deriving instance DecidableEq, Repr for MessageContent

/-- A history message. -/
structure Message where
  role : String
  content : MessageContent

deriving instance DecidableEq, Repr for Message

/-- A session (the in-memory representation of the session module). -/
structure Session where
  id : String
  messages : List Message
  lastImage : Option ImageResult
  createdAt : Int
  lastUsedAt : Int

deriving instance DecidableEq, Repr for Session

/-- A persisted image reference: file path plus MIME type. -/
structure ImageRef where
  path : String
  mimeType : String

deriving instance DecidableEq, Repr for ImageRef

/-- A persisted session record, as written by saveSessionToFile: image parts
in messages are replaced by reference markers, the reference table maps
marker keys to image files, and lastImage is replaced by a reference. -/
structure StoredSession where
  id : String
  messages : List Message
  messageImageRefs : List (String × ImageRef)
  lastImageRef : Option ImageRef
  createdAt : Int
  lastUsedAt : Int

deriving instance DecidableEq, Repr for StoredSession

/-- Lookup in an association list keyed by strings (models a JS Map or a
directory of files). -/
def assocGet {α : Type} (l : List (String × α)) (k : String) : Option α :=
  (l.find? (fun p => p.1 == k)).map Prod.snd

/-- Insert-or-overwrite in an association list. -/
def assocSet {α : Type} (l : List (String × α)) (k : String) (v : α) : List (String × α) :=
  (k, v) :: l.filter (fun p => p.1 != k)

/-- Deletion from an association list. -/
def assocDel {α : Type} (l : List (String × α)) (k : String) : List (String × α) :=
  l.filter (fun p => p.1 != k)

/-- The durable mirror: a directory of per-session JSON records and a
directory of image blobs.  Image file contents (bytes) are modelled by their
canonical base64 encoding. -/
structure FileStore where
  sessionFiles : List (String × StoredSession)
  imageFiles : List (String × String)

deriving instance DecidableEq, Repr for FileStore

/-- The full session-store state: the in-memory map plus the durable mirror. -/
structure SessionStoreState where
  mem : List (String × Session)
  files : FileStore

deriving instance DecidableEq, Repr for SessionStoreState

/-- The configuration the session module reads: sessionPersistEnabled and
sessionTtlMs. -/
structure SessionConfig where
  persist : Bool
  ttlMs : Int

/-- DEFAULTS.SESSION_MAX_HISTORY (config.js). -/
def SESSION_MAX_HISTORY : Nat := 10

/-- The session image path of getSessionImagePath; the storage directory
prefix is constant and omitted from the modelled path. -/
def getSessionImagePath (sessionId suffix : String) : String :=
  sessionId ++ "_" ++ suffix ++ ".png"

/-- The last count elements of a list (JS Array.slice with a negative index). -/
def sliceLast {α : Type} (l : List α) (k : Nat) : List α :=
  l.drop (l.length - k)

/-- Embeds the session module's saveImageToFile: under persistence, write the
image bytes to the per-session last-image file and return a reference
carrying the image's MIME type. -/
def saveImageToFile (cfg : SessionConfig) (fs : FileStore) (sessionId : String)
    (image : Option ImageResult) : Option ImageRef × FileStore :=
  if cfg.persist = false then (none, fs)
  else
    match image with
    | none => (none, fs)
    | some img =>
      let p := getSessionImagePath sessionId "last"
      (some { path := p, mimeType := img.mimeType },
       { fs with imageFiles := assocSet fs.imageFiles p img.base64 })

/-- Embeds the session module's loadImageFromFile: read the referenced file
back into base64 with the reference's MIME type, defaulting to image/png. -/
def loadImageFromFile (fs : FileStore) (imageRef : Option ImageRef) : Option ImageResult :=
  match imageRef with
  | none => none
  | some r =>
    if r.path = "" then none
    else
      match assocGet fs.imageFiles r.path with
      | some content =>
        some { base64 := content
               mimeType := if r.mimeType = "" then "image/png" else r.mimeType }
      | none => none

/-- The data-URL regex as used inside extractMessageImages: unlike
parseDataUrl it neither trims the MIME group nor substitutes a default (and
its lack of the dotall flag is immaterial, as the payloads written by this
program contain no newlines). -/
def matchDataUrlRaw (s : String) : Option DataUrl :=
  if strStarts s "data:" then
    let rest := s.toList.drop 5
    let g1 := rest.takeWhile (fun c => c != ';')
    let t := rest.drop g1.length
    match t with
    | [] => none
    | _ :: t2 =>
      if g1 = [] then none
      else if "base64,".toList.isPrefixOf t2 then
        let g2 := t2.drop 7
        if g2 = [] then none
        else some { mimeType := String.mk g1, base64 := String.mk g2 }
      else none
  else none

/-- State-threading map (the JS loops that carry the image index, the
reference table and the file writes across parts and messages). -/
def mapState {σ α β : Type} (f : σ → α → β × σ) : σ → List α → List β × σ
  | st, [] => ([], st)
  | st, a :: rest =>
    let (b, st2) := f st a
    let (bs, st3) := mapState f st2 rest
    (b :: bs, st3)

/-- The per-part body of extractMessageImages: an image_url part whose url is
a matching data URL is written to a per-message image file and replaced by a
reference marker; everything else is kept verbatim. -/
def extractContentPart (sessionId : String)
    (st : Nat × List (String × ImageRef) × FileStore) (part : ContentPart) :
    ContentPart × (Nat × List (String × ImageRef) × FileStore) :=
  match part with
  | ContentPart.image url =>
    if strStarts url "data:" then
      match matchDataUrlRaw url with
      | some p =>
        let (idx, refs, fs) := st
        let refKey := "img_" ++ toString idx
        let ipath := sessionId ++ "_msg_" ++ refKey ++ ".png"
        (ContentPart.imageRef refKey "[image stored separately]",
         (idx + 1,
          assocSet refs refKey { path := ipath, mimeType := p.mimeType },
          { fs with imageFiles := assocSet fs.imageFiles ipath p.base64 }))
      | none => (part, st)
    else (part, st)
  | _ => (part, st)

/-- The per-message body of extractMessageImages (string contents pass
through untouched). -/
def extractMessage (sessionId : String)
    (st : Nat × List (String × ImageRef) × FileStore) (msg : Message) :
    Message × (Nat × List (String × ImageRef) × FileStore) :=
  match msg.content with
  | MessageContent.str _ => (msg, st)
  | MessageContent.parts l =>
    let (l2, st2) := mapState (extractContentPart sessionId) st l
    ({ msg with content := MessageContent.parts l2 }, st2)

/-- Embeds the session module's extractMessageImages. -/
def extractMessageImages (sessionId : String) (fs : FileStore) (messages : List Message) :
    List Message × List (String × ImageRef) × FileStore :=
  ((mapState (extractMessage sessionId) (0, [], fs) messages).1,
   (mapState (extractMessage sessionId) (0, [], fs) messages).2.2.1,
   (mapState (extractMessage sessionId) (0, [], fs) messages).2.2.2)

/-- Embeds the session module's saveSessionToFile: under persistence, bound
the history, extract inline message images into files, write the last image
to its own file, and write the record with references in place of inline
payloads. -/
def saveSessionToFile (cfg : SessionConfig) (fs : FileStore) (session : Session) : FileStore :=
  if cfg.persist = false then fs
  else
    let messages := sliceLast session.messages (SESSION_MAX_HISTORY * 2)
    let (processed, refs, fs1) := extractMessageImages session.id fs messages
    let (lastImageRef, fs2) := saveImageToFile cfg fs1 session.id session.lastImage
    let record : StoredSession :=
      { id := session.id
        messages := processed
        messageImageRefs := refs
        lastImageRef := lastImageRef
        createdAt := session.createdAt
        lastUsedAt := session.lastUsedAt }
    { fs2 with sessionFiles := assocSet fs2.sessionFiles session.id record }

/-- The per-part body of restoreMessageImages: a reference marker is resolved
through the reference table and the image file back to an inline data URL;
an unresolvable marker keeps the stored placeholder url (the marker key is
deleted either way). -/
def restorePart (fs : FileStore) (refs : List (String × ImageRef)) (part : ContentPart) :
    ContentPart :=
  match part with
  | ContentPart.imageRef key url =>
    match assocGet refs key with
    | some r =>
      match loadImageFromFile fs (some r) with
      | some image =>
        ContentPart.image ("data:" ++ image.mimeType ++ ";base64," ++ image.base64)
      | none => ContentPart.image url
    | none => ContentPart.image url
  | p => p

/-- restoreMessageImages applied to one message. -/
def restoreMessage (fs : FileStore) (refs : List (String × ImageRef)) (msg : Message) :
    Message :=
  match msg.content with
  | MessageContent.parts l => { msg with content := MessageContent.parts (l.map (restorePart fs refs)) }
  | _ => msg

/-- Embeds the session module's loadSessionFromFile: read the record, load
lastImage from its reference, and (when a reference table was saved) restore
the message images. -/
def loadSessionFromFile (cfg : SessionConfig) (fs : FileStore) (sessionId : String) :
    Option Session :=
  if cfg.persist = false then none
  else
    match assocGet fs.sessionFiles sessionId with
    | none => none
    | some record =>
      let lastImage :=
        match record.lastImageRef with
        | some r => loadImageFromFile fs (some r)
        | none => none
      let messages :=
        if record.messageImageRefs.isEmpty then record.messages
        else record.messages.map (restoreMessage fs record.messageImageRefs)
      some { id := record.id
             messages := messages
             lastImage := lastImage
             createdAt := record.createdAt
             lastUsedAt := record.lastUsedAt }

/-- Embeds the session module's deleteSessionFile: remove the session record,
the last-image file, and every image file whose name starts with the
session-id prefix. -/
def deleteSessionFile (cfg : SessionConfig) (fs : FileStore) (sessionId : String) : FileStore :=
  if cfg.persist = false then fs
  else
    { sessionFiles := assocDel fs.sessionFiles sessionId
      imageFiles := fs.imageFiles.filter (fun p => !(strStarts p.1 (sessionId ++ "_"))) }

/-- A session id argument normalized for JS truthiness (an empty string is
falsy, hence treated like a missing id). -/
def truthyId : Option String → Option String
  | some s => if s = "" then none else some s
  | none => none

/-- Embeds the persistent session module's getOrCreateSession: an in-memory
hit refreshes lastUsedAt and returns (with no expiry check); otherwise a
durable record is loaded and, if not expired, promoted into memory; an
expired record is deleted; in every remaining case a brand-new session with
the freshly generated id is created, cached and persisted. -/
def getOrCreateSession (cfg : SessionConfig) (st : SessionStoreState)
    (sessionId : Option String) (now : Int) (newId : String) :
    Session × SessionStoreState :=
  let fromFileOrNew : Session × SessionStoreState :=
    let mkNew : Session × SessionStoreState :=
      let newSession : Session :=
        { id := newId, messages := [], lastImage := none, createdAt := now, lastUsedAt := now }
      (newSession,
       { mem := assocSet st.mem newId newSession
         files := saveSessionToFile cfg st.files newSession })
    match truthyId sessionId with
    | some sid =>
      match loadSessionFromFile cfg st.files sid with
      | some fileSession =>
        if now - fileSession.lastUsedAt ≤ cfg.ttlMs then
          let s2 := { fileSession with lastUsedAt := now }
          (s2, { st with mem := assocSet st.mem sid s2 })
        else
          let st2 : SessionStoreState := { st with files := deleteSessionFile cfg st.files sid }
          let newSession : Session :=
            { id := newId, messages := [], lastImage := none, createdAt := now, lastUsedAt := now }
          (newSession,
           { mem := assocSet st2.mem newId newSession
             files := saveSessionToFile cfg st2.files newSession })
      | none => mkNew
    | none => mkNew
  match truthyId sessionId with
  | some sid =>
    match assocGet st.mem sid with
    | some session =>
      let s2 := { session with lastUsedAt := now }
      (s2, { st with mem := assocSet st.mem sid s2 })
    | none => fromFileOrNew
  | none => fromFileOrNew

/-- Embeds the session module's isNewSession. -/
def isNewSession (sessionId : Option String) (session : Session) : Bool :=
  match sessionId with
  | none => true
  | some s => s == "" || s != session.id

/-- Embeds the session module's buildUserContent. -/
def buildUserContent (prompt : String) (inputImage : Option ImageResult) : MessageContent :=
  match inputImage with
  | some img =>
    MessageContent.parts
      [ContentPart.text prompt,
       ContentPart.image ("data:" ++ img.mimeType ++ ";base64," ++ img.base64)]
  | none => MessageContent.str prompt

/-- Embeds the persistent session module's updateSession: append the user
message; when images were produced, set lastImage to the first and append an
assistant message embedding it inline; refresh lastUsedAt; trim the history
to twice SESSION_MAX_HISTORY keeping the newest entries; persist. -/
def updateSession (cfg : SessionConfig) (fs : FileStore) (session : Session)
    (userContent : MessageContent) (images : List ImageResult) (now : Int) :
    Session × FileStore :=
  let msgs1 := session.messages ++ [({ role := "user", content := userContent } : Message)]
  let (msgs2, lastImage) :=
    match images with
    | [] => (msgs1, session.lastImage)
    | firstImage :: _ =>
      (msgs1 ++
        [({ role := "assistant"
            content := MessageContent.parts
              [ContentPart.text ("[已生成 " ++ toString images.length ++ " 张图片]"),
               ContentPart.image ("data:" ++ firstImage.mimeType ++ ";base64," ++ firstImage.base64)] } : Message)],
       some firstImage)
  let msgs3 :=
    if SESSION_MAX_HISTORY * 2 < msgs2.length then sliceLast msgs2 (SESSION_MAX_HISTORY * 2)
    else msgs2
  let s2 : Session := { session with messages := msgs3, lastImage := lastImage, lastUsedAt := now }
  (s2, saveSessionToFile cfg fs s2)

/-- Embeds the session module's cleanupExpiredSessions on the in-memory map
(the file-directory pass is the same predicate over the durable records):
every session with now minus lastUsedAt beyond the TTL is removed from
memory together with its durable record and image files. -/
def cleanupExpiredSessions (cfg : SessionConfig) (st : SessionStoreState) (now : Int) :
    SessionStoreState :=
  let expired := st.mem.filter (fun p => cfg.ttlMs < now - p.2.lastUsedAt)
  let mem2 := st.mem.filter (fun p => !(cfg.ttlMs < now - p.2.lastUsedAt))
  let files2 := expired.foldl (fun fs p => deleteSessionFile cfg fs p.1) st.files
  { mem := mem2, files := files2 }

/-- The prompt argument: a string or an array of strings. -/
inductive PromptArg where
  | str (s : String)
  | arr (l : List String)

/-- Embeds parsePrompt of the server entry point. -/
def parsePrompt : Option PromptArg → String
  | some (PromptArg.str s) => jsTrim s
  | some (PromptArg.arr l) => jsTrim (String.intercalate " " l)
  | none => ""

/-- Embeds parseSize of the server entry point: a purely numeric size N
becomes NxN. -/
def parseSize (raw : Option String) (defaultSize : String) : String :=
  let size := jsTrim (raw.getD defaultSize)
  if size ≠ "" ∧ size.toList.all Char.isDigit = true then size ++ "x" ++ size else size

/-- Embeds parseOutput of the server entry point. -/
def parseOutput (raw : Option String) (defaultOutput : String) : String :=
  let o := jsToLower (jsTrim (raw.getD defaultOutput))
  if o = "image" ∨ o = "base64" ∨ o = "b64" ∨ o = "data" ∨ o = "inline" then "image" else "path"

/-- Embeds parseInputImage of the server entry point: a truthy image argument
is parsed as a data URL, then as plausible raw base64 (with an image/png MIME
type), and yields no input image when both fail; with no truthy argument, a
continuing session's lastImage is used when present. -/
def parseInputImage (imageArg : Option String) (isNew : Bool) (lastImage : Option ImageResult) :
    Option ImageResult :=
  let fallback := if isNew = false then lastImage else none
  match imageArg with
  | some a =>
    if a ≠ "" then
      match parseDataUrl a with
      | some p => some { base64 := p.base64, mimeType := p.mimeType }
      | none =>
        if isValidBase64 a then some { base64 := a, mimeType := "image/png" } else none
    else fallback
  | none => fallback

/-- Embeds resolveOutDir restricted to what the orchestrator observes: the
home-directory and absolute-path resolution never turns a nonempty argument
into an empty one, so emptiness of the result is that of the trimmed input. -/
def resolveOutDir (raw : String) : String := jsTrim raw

/-- Arguments of the generate_image tool (the multi-alias spellings are
resolved before the core, per the configuration-resolution convention). -/
structure GenerateArgs where
  prompt : Option PromptArg := none
  session_id : Option String := none
  image : Option String := none
  size : Option String := none
  n : Option Int := none
  output : Option String := none
  outDir : Option String := none

/-- What the orchestrator hands back: an in-protocol error content (isError
response) or a success carrying the images and the session id. -/
inductive HandlerOutcome where
  | errorText (msg : String)
  | success (images : List ImageResult) (sessionId : String)

deriving instance DecidableEq, Repr for HandlerOutcome

/-- Ambient defaults the handler reads from config: default size, output,
out-dir, and the platform default pictures directory. -/
structure HandlerDefaults where
  defaultSize : String := "1024x1024"
  defaultOutput : String := "path"
  defaultOutDir : String := ""
  picturesDir : String := "Pictures"

/-- Embeds handleGenerateImage of the server entry point: validate the
prompt, resolve the session, resolve the effective input image, parse
size/count/output/outDir, invoke the adapter, and only on success update the
session; an adapter failure propagates with the store exactly as it was
after session resolution. -/
def handleGenerateImage (cfg : SessionConfig) (mode : String) (u : UpstreamResponses)
    (d : HandlerDefaults) (st : SessionStoreState) (args : GenerateArgs)
    (now : Int) (newId : String) :
    Except UpstreamError HandlerOutcome × SessionStoreState :=
  let prompt := parsePrompt args.prompt
  if prompt = "" then (Except.ok (HandlerOutcome.errorText "参数 prompt 不能为空"), st)
  else
    let (session, st1) := getOrCreateSession cfg st args.session_id now newId
    let isNew := isNewSession args.session_id session
    let inputImage := parseInputImage args.image isNew session.lastImage
    let n := clampInt (parseIntOr args.n 1) 1 4
    let output := parseOutput args.output d.defaultOutput
    let outDir0 := resolveOutDir (args.outDir.getD d.defaultOutDir)
    let outDir := if output = "path" ∧ outDir0 = "" then d.picturesDir else outDir0
    if output = "path" ∧ outDir = "" then
      (Except.ok (HandlerOutcome.errorText "参数 outDir 不能为空"), st1)
    else
      match (generateImagesFromResponses mode u n).1 with
      | Except.error e => (Except.error e, st1)
      | Except.ok images =>
        let userContent := buildUserContent prompt inputImage
        let (s2, fs2) := updateSession cfg st1.files session userContent images now
        (Except.ok (HandlerOutcome.success images s2.id),
         { mem := assocSet st1.mem session.id s2, files := fs2 })

/-! Concrete instances used by the witnesses and counterexamples below. -/

/-- A sample image. -/
def imgC1 : ImageResult := { base64 := "GG", mimeType := "image/png" }

/-- C1 scenario: the images API fails with 404, the Gemini native strategy
succeeds with one image, chat completions would fail. -/
def sC1 : StrategyCalls :=
  { imagesApi := Except.error (UpstreamError.httpError 404)
    gemini := fun _ => Except.ok [imgC1]
    chat := fun _ => Except.error UpstreamError.zeroImages }

/-- C2 counterexample upstream: the images API responds 200 with two items. -/
def uC2 : UpstreamResponses :=
  { fetchUrl := fun _ => { base64 := "FF", mimeType := "image/png" }
    imagesApi := HttpResponse.ok [{ b64_json := some "AAAA" }, { b64_json := some "BBBB" }]
    gemini := fun _ => HttpResponse.fail 500
    chat := fun _ => HttpResponse.fail 500 }

/-- A one-inline-image chat-completions response whose payload is the given
string. -/
def oneImageChatResponse (payload : String) : ChatResponse :=
  { choices :=
      [{ message := some
          { contentItems := some
              [{ inline_data := some { data := some payload, mimeType := some "image/png" } }] } }] }

/-- C2 witness upstream: a chat endpoint returning one inline image per call. -/
def uC2w : UpstreamResponses :=
  { fetchUrl := fun _ => { base64 := "FF", mimeType := "image/png" }
    imagesApi := HttpResponse.fail 500
    gemini := fun _ => HttpResponse.fail 500
    chat := fun _ => HttpResponse.ok (oneImageChatResponse "CC") }

/-- C7 upstream: a chat endpoint whose i-th call returns exactly one inline
image whose payload is the call index. -/
def uC7 : UpstreamResponses :=
  { fetchUrl := fun _ => { base64 := "FF", mimeType := "image/png" }
    imagesApi := HttpResponse.fail 500
    gemini := fun _ => HttpResponse.fail 500
    chat := fun _ => HttpResponse.ok (oneImageChatResponse "P") }

/-- The image produced by every call of uC7. -/
def imgC7 : ImageResult := { base64 := "P", mimeType := "image/png" }

/-- A session configuration with a short TTL, persistence on. -/
def cfgC4 : SessionConfig := { persist := true, ttlMs := 10 }

/-- An in-memory session last used at time 0. -/
def sessC4 : Session :=
  { id := "s1", messages := [], lastImage := none, createdAt := 0, lastUsedAt := 0 }

/-- C4 counterexample store: the stale session sits in the in-memory map. -/
def stC4 : SessionStoreState :=
  { mem := [("s1", sessC4)], files := { sessionFiles := [], imageFiles := [] } }

/-- A stale durable record for the C4 witness. -/
def storedC4 : StoredSession :=
  { id := "s2", messages := [], messageImageRefs := [], lastImageRef := none
    createdAt := 0, lastUsedAt := 0 }

/-- C4 witness store: the stale session exists only in durable storage. -/
def stC4w : SessionStoreState :=
  { mem := [], files := { sessionFiles := [("s2", storedC4)], imageFiles := [] } }

/-- Images for the C6 witness. -/
def imgC6 : ImageResult := { base64 := "BBBB", mimeType := "image/jpeg" }

/-- C6 witness session. -/
def sessC6 : Session :=
  { id := "s6", messages := [], lastImage := none, createdAt := 0, lastUsedAt := 0 }

/-- C3 witness configuration: memory-only store, TTL 1000. -/
def cfgC3 : SessionConfig := { persist := false, ttlMs := 1000 }

/-- C3 witness upstream: every strategy fails with HTTP 500. -/
def uC3 : UpstreamResponses :=
  { fetchUrl := fun _ => { base64 := "FF", mimeType := "image/png" }
    imagesApi := HttpResponse.fail 500
    gemini := fun _ => HttpResponse.fail 500
    chat := fun _ => HttpResponse.fail 500 }

/-- C3 witness session with one message of history and a last image. -/
def sessC3 : Session :=
  { id := "s3", messages := [{ role := "user", content := MessageContent.str "earlier" }]
    lastImage := some imgC1, createdAt := 0, lastUsedAt := 0 }

/-- C3 witness store. -/
def stC3 : SessionStoreState :=
  { mem := [("s3", sessC3)], files := { sessionFiles := [], imageFiles := [] } }

/-- C3 witness arguments: valid prompt, continuing session s3. -/
def argsC3 : GenerateArgs :=
  { prompt := some (PromptArg.str "hi"), session_id := some "s3" }

/-- C9 upstream: the Gemini native strategy succeeds with one image per call. -/
def uC9 : UpstreamResponses :=
  { fetchUrl := fun _ => { base64 := "FF", mimeType := "image/png" }
    imagesApi := HttpResponse.fail 500
    chat := fun _ => HttpResponse.fail 500
    gemini := fun _ => HttpResponse.ok
      { candidates := [{ parts := [{ inlineData := some { data := some "GG", mimeType := some "image/png" } }] }] } }

/-- C9 counterexample arguments: valid prompt, out-of-range count 100. -/
def argsC9 : GenerateArgs :=
  { prompt := some (PromptArg.str "hi"), session_id := some "s9", n := some 100 }

/-- C9 configuration: memory-only store. -/
def cfgC9 : SessionConfig := { persist := false, ttlMs := 1000 }

/-- C9 session: an empty continuing session. -/
def sessC9 : Session :=
  { id := "s9", messages := [], lastImage := none, createdAt := 0, lastUsedAt := 0 }

/-- C9 store. -/
def stC9 : SessionStoreState :=
  { mem := [("s9", sessC9)], files := { sessionFiles := [], imageFiles := [] } }

/-- The image produced by every uC9 native call. -/
def imgC9 : ImageResult := { base64 := "GG", mimeType := "image/png" }

/-- C10 image standing for a continuing session's last image. -/
def imgC10 : ImageResult := { base64 := "LAST", mimeType := "image/png" }

/-! Helper lemmas about the adapter loop and the strategies. -/

/-- A successful run of the repeated-call loop returns at most count images. -/
theorem generateMultipleAux_ok_length (gen : Nat → Except UpstreamError (List ImageResult))
    (count : Nat) :
    ∀ fuel i out imgs j,
      generateMultipleAux gen count fuel i out = (Except.ok imgs, j) →
      imgs.length ≤ count := by
  intro fuel
  induction fuel with
  | zero =>
    intro i out imgs j h
    simp only [generateMultipleAux, Prod.mk.injEq, Except.ok.injEq] at h
    obtain ⟨h1, _⟩ := h
    subst h1
    simp
  | succ f ih =>
    intro i out imgs j h
    cases hg : gen i with
    | error e => simp [generateMultipleAux, hg] at h
    | ok batch =>
      simp only [generateMultipleAux, hg] at h
      by_cases hc : count ≤ (out ++ batch).length
      · rw [if_pos hc] at h
        simp only [Prod.mk.injEq, Except.ok.injEq] at h
        obtain ⟨h1, _⟩ := h
        subst h1
        simp
      · rw [if_neg hc] at h
        exact ih _ _ _ _ h

/-- The repeated-call loop makes at most fuel further calls. -/
theorem generateMultipleAux_calls_le (gen : Nat → Except UpstreamError (List ImageResult))
    (count : Nat) :
    ∀ fuel i out, (generateMultipleAux gen count fuel i out).2 ≤ i + fuel := by
  intro fuel
  induction fuel with
  | zero => intro i out; simp [generateMultipleAux]
  | succ f ih =>
    intro i out
    cases hg : gen i with
    | error e => simp [generateMultipleAux, hg]
    | ok batch =>
      simp only [generateMultipleAux, hg]
      by_cases hc : count ≤ (out ++ batch).length
      · rw [if_pos hc]; simp
      · rw [if_neg hc]
        have := ih (i + 1) (out ++ batch)
        omega

/-- When every successful call yields at least one image and the requested
count is positive, a successful run of the loop returns at least one image. -/
theorem generateMultipleAux_ok_ne_nil (gen : Nat → Except UpstreamError (List ImageResult))
    (count : Nat)
    (hgen : ∀ i b, gen i = Except.ok b → b ≠ [])
    (hcount : 1 ≤ count) :
    ∀ fuel i out, (fuel = 0 → out ≠ []) →
      ∀ imgs j, generateMultipleAux gen count fuel i out = (Except.ok imgs, j) → imgs ≠ [] := by
  intro fuel
  induction fuel with
  | zero =>
    intro i out hout imgs j h
    simp only [generateMultipleAux, Prod.mk.injEq, Except.ok.injEq] at h
    obtain ⟨h1, _⟩ := h
    subst h1
    intro hnil
    rw [List.take_eq_nil_iff] at hnil
    rcases hnil with h | h
    · omega
    · exact hout rfl h
  | succ f ih =>
    intro i out _ imgs j h
    cases hg : gen i with
    | error e => simp [generateMultipleAux, hg] at h
    | ok batch =>
      have hb : batch ≠ [] := hgen i batch hg
      simp only [generateMultipleAux, hg] at h
      by_cases hc : count ≤ (out ++ batch).length
      · rw [if_pos hc] at h
        simp only [Prod.mk.injEq, Except.ok.injEq] at h
        obtain ⟨h1, _⟩ := h
        subst h1
        intro hnil
        rw [List.take_eq_nil_iff] at hnil
        rcases hnil with h | h
        · omega
        · rw [List.append_eq_nil] at h
          exact hb h.2
      · rw [if_neg hc] at h
        refine ih (i + 1) (out ++ batch) ?_ imgs j h
        intro _
        intro hap
        rw [List.append_eq_nil] at hap
        exact hb hap.2

/-- A successful generateMultiple run returns at most count images. -/
theorem generateMultiple_ok_length (gen : Nat → Except UpstreamError (List ImageResult))
    (count : Nat) (imgs : List ImageResult) (j : Nat)
    (h : generateMultiple gen count = (Except.ok imgs, j)) : imgs.length ≤ count :=
  generateMultipleAux_ok_length gen count count 0 [] imgs j h

/-- generateMultiple makes at most count calls. -/
theorem generateMultiple_calls_le (gen : Nat → Except UpstreamError (List ImageResult))
    (count : Nat) : (generateMultiple gen count).2 ≤ count := by
  have := generateMultipleAux_calls_le gen count count 0 []
  simpa [generateMultiple] using this

/-- The images-API strategy never succeeds with an empty image list. -/
theorem generateImagesViaImagesApi_ok_ne_nil (f : String → ImageResult)
    (r : HttpResponse (List ImagesApiItem)) (imgs : List ImageResult)
    (h : generateImagesViaImagesApi f r = Except.ok imgs) : imgs ≠ [] := by
  unfold generateImagesViaImagesApi at h
  split at h
  · simp at h
  · dsimp only at h
    split at h
    · simp at h
    · rename_i hz
      simp only [Except.ok.injEq] at h
      subst h
      intro hnil
      exact hz (by simp [hnil])

/-- The Gemini native strategy never succeeds with an empty image list. -/
theorem generateImagesViaGeminiNative_ok_ne_nil
    (r : HttpResponse GeminiResponse) (imgs : List ImageResult)
    (h : generateImagesViaGeminiNative r = Except.ok imgs) : imgs ≠ [] := by
  unfold generateImagesViaGeminiNative at h
  split at h
  · simp at h
  · dsimp only at h
    split at h
    · simp at h
    · rename_i hz
      simp only [Except.ok.injEq] at h
      subst h
      intro hnil
      exact hz (by simp [hnil])

/-- The chat-completions strategy never succeeds with an empty image list. -/
theorem generateImagesViaChatCompletions_ok_ne_nil (f : String → ImageResult)
    (r : HttpResponse ChatResponse) (imgs : List ImageResult)
    (h : generateImagesViaChatCompletions f r = Except.ok imgs) : imgs ≠ [] := by
  unfold generateImagesViaChatCompletions at h
  split at h
  · simp at h
  · dsimp only at h
    split at h
    · simp at h
    · rename_i hz
      simp only [Except.ok.injEq] at h
      subst h
      intro hnil
      exact hz (by simp [hnil])

/-- The effective count is always between 1 and 4. -/
theorem effectiveCount_bounds (n : Int) : 1 ≤ effectiveCount n ∧ effectiveCount n ≤ 4 := by
  unfold effectiveCount clampInt parseIntOr
  simp only [Option.getD_some]
  omega

/-- C1: in auto mode the images-generation strategy is tried first; exactly
an HttpError with status 404 or 400 triggers the fallback to the
native-generation strategy; any failure of that attempt falls back to
chat-completions; any other first failure propagates with no further
strategy invoked; and a succeeding native-generation fallback never invokes
chat-completions. -/
theorem autoFallbackOrchestration (s : StrategyCalls) (count : Nat) :
    (∀ imgs, s.imagesApi = Except.ok imgs →
      generateWithFallback s count = (Except.ok imgs, ⟨1, 0, 0⟩)) ∧
    (∀ e, s.imagesApi = Except.error e → fallbackEligible e = false →
      generateWithFallback s count = (Except.error e, ⟨1, 0, 0⟩)) ∧
    (∀ st, s.imagesApi = Except.error (UpstreamError.httpError st) →
      st = 404 ∨ st = 400 →
      (∀ imgs g, generateMultiple s.gemini count = (Except.ok imgs, g) →
        generateWithFallback s count = (Except.ok imgs, ⟨1, g, 0⟩)) ∧
      (∀ e2 g, generateMultiple s.gemini count = (Except.error e2, g) →
        generateWithFallback s count =
          ((generateMultiple s.chat count).1, ⟨1, g, (generateMultiple s.chat count).2⟩))) ∧
    (∀ e, fallbackEligible e = true ↔
      ∃ st, e = UpstreamError.httpError st ∧ (st = 404 ∨ st = 400)) := by
  refine ⟨?_, ?_, ?_, ?_⟩
  · intro imgs h
    simp [generateWithFallback, h]
  · intro e h hne
    simp [generateWithFallback, h, hne]
  · intro st h hst
    have hel : fallbackEligible (UpstreamError.httpError st) = true := by
      rcases hst with h4 | h4 <;> simp [fallbackEligible, h4]
    constructor
    · intro imgs g hg
      simp [generateWithFallback, h, hel, hg]
    · intro e2 g hg
      simp [generateWithFallback, h, hel, hg]
  · intro e
    cases e with
    | httpError st =>
      simp only [fallbackEligible, Bool.or_eq_true, beq_iff_eq]
      constructor
      · intro hst
        exact ⟨st, rfl, hst⟩
      · rintro ⟨st2, heq, hst⟩
        cases heq
        exact hst
    | zeroImages => simp [fallbackEligible]

/-- C1 witness: the spec scenario — images API fails with 404, the native
strategy succeeds with one image at count 1; the result is that image and
chat-completions is never invoked. -/
theorem autoFallbackOrchestration_witness :
    generateWithFallback sC1 1 = (Except.ok [imgC1], ⟨1, 1, 0⟩) :=
  ((autoFallbackOrchestration sC1 1).2.2.1 404 rfl (Or.inl rfl)).1 [imgC1] 1 rfl

/-- generateImages in gemini mode is the repeated native-generation loop. -/
theorem generateImages_gemini (s : StrategyCalls) (n : Int) :
    generateImages "gemini" s n =
      ((generateMultiple s.gemini (effectiveCount n)).1,
       ⟨0, (generateMultiple s.gemini (effectiveCount n)).2, 0⟩) := by
  unfold generateImages
  rw [if_pos rfl]

/-- generateImages in openai or images mode is one images-API call, returned
untouched. -/
theorem generateImages_imagesLike (mode : String) (s : StrategyCalls) (n : Int)
    (h1 : mode ≠ "gemini") (h2 : mode = "openai" ∨ mode = "images") :
    generateImages mode s n = (s.imagesApi, ⟨1, 0, 0⟩) := by
  unfold generateImages
  rw [if_neg h1, if_pos h2]

/-- generateImages in auto mode is the fallback orchestrator. -/
theorem generateImages_auto (s : StrategyCalls) (n : Int) :
    generateImages "auto" s n = generateWithFallback s (effectiveCount n) := by
  unfold generateImages
  rw [if_neg (show ("auto" : String) ≠ "gemini" by decide),
      if_neg (show ¬(("auto" : String) = "openai" ∨ ("auto" : String) = "images") by decide),
      if_pos rfl]

/-- generateImages in any remaining mode is the repeated chat-completions
loop. -/
theorem generateImages_chatLike (mode : String) (s : StrategyCalls) (n : Int)
    (h1 : mode ≠ "gemini") (h2 : ¬(mode = "openai" ∨ mode = "images")) (h4 : mode ≠ "auto") :
    generateImages mode s n =
      ((generateMultiple s.chat (effectiveCount n)).1,
       ⟨0, 0, (generateMultiple s.chat (effectiveCount n)).2⟩) := by
  unfold generateImages
  rw [if_neg h1, if_neg h2, if_neg h4]

/-- A successful repeated-call loop (first projection) returns at most count
images. -/
theorem generateMultiple_fst_ok_length (gen : Nat → Except UpstreamError (List ImageResult))
    (count : Nat) (imgs : List ImageResult)
    (h : (generateMultiple gen count).1 = Except.ok imgs) : imgs.length ≤ count := by
  rcases hg : generateMultiple gen count with ⟨res, j⟩
  rw [hg] at h
  dsimp only at h
  subst h
  exact generateMultipleAux_ok_length gen count count 0 [] imgs j hg

/-- A successful repeated-call loop (first projection) over a strategy that
never succeeds empty, with positive count, returns at least one image. -/
theorem generateMultiple_fst_ok_ne_nil (gen : Nat → Except UpstreamError (List ImageResult))
    (count : Nat)
    (hgen : ∀ i b, gen i = Except.ok b → b ≠ []) (hcount : 1 ≤ count)
    (imgs : List ImageResult)
    (h : (generateMultiple gen count).1 = Except.ok imgs) : imgs ≠ [] := by
  rcases hg : generateMultiple gen count with ⟨res, j⟩
  rw [hg] at h
  dsimp only at h
  subst h
  refine generateMultipleAux_ok_ne_nil gen count hgen hcount count 0 [] ?_ imgs j hg
  intro h0
  exact absurd (h0 ▸ hcount) (by decide)

/-- A successful fallback run comes from one of the three strategies: the
single images-API call, the native loop, or the chat loop. -/
theorem generateWithFallback_fst_ok (s : StrategyCalls) (count : Nat) (imgs : List ImageResult)
    (h : (generateWithFallback s count).1 = Except.ok imgs) :
    s.imagesApi = Except.ok imgs ∨
    (generateMultiple s.gemini count).1 = Except.ok imgs ∨
    (generateMultiple s.chat count).1 = Except.ok imgs := by
  unfold generateWithFallback at h
  cases hapi : s.imagesApi with
  | ok imgs0 =>
    rw [hapi] at h
    dsimp only at h
    simp only [Except.ok.injEq] at h
    subst h
    exact Or.inl rfl
  | error e =>
    rw [hapi] at h
    dsimp only at h
    by_cases hel : fallbackEligible e = true
    · rw [if_pos hel] at h
      rcases hg : generateMultiple s.gemini count with ⟨res, g⟩
      rw [hg] at h
      cases res with
      | ok imgs2 =>
        dsimp only at h
        simp only [Except.ok.injEq] at h
        subst h
        right; left
        rfl
      | error e2 =>
        dsimp only at h
        right; right
        exact h
    · rw [if_neg hel] at h
      dsimp only at h
      simp at h

/-- C2 counterexample: in images mode with requested count 1, an upstream
response carrying two items makes the adapter return two images — the
returned sequence exceeds the requested count. -/
theorem countSatisfaction_cex :
    (generateImagesFromResponses "images" uC2 1).1 =
      Except.ok [{ base64 := "AAAA", mimeType := "image/png" },
                 { base64 := "BBBB", mimeType := "image/png" }] ∧
    ¬ ((2 : Nat) ≤ effectiveCount 1) := by
  constructor
  · rw [generateImagesFromResponses,
        generateImages_imagesLike _ _ _ (by decide) (Or.inr rfl)]
    decide
  · decide

/-- C2 (amended): in the modes that run the repeated-call loop (every mode
other than openai/images/auto, and auto whenever the images API did not
succeed) the adapter returns at most the clamped count of images; in every
mode a successful result is nonempty; and a strategy whose HTTP call
succeeds with zero recognizable images fails with the distinct zero-images
error rather than returning an empty sequence. -/
theorem countSatisfactionAmended (mode : String) (u : UpstreamResponses) (n : Int) :
    (mode ≠ "gemini" → mode ≠ "openai" → mode ≠ "images" → mode ≠ "auto" →
      ∀ imgs, (generateImagesFromResponses mode u n).1 = Except.ok imgs →
        imgs.length ≤ effectiveCount n) ∧
    (∀ imgs, (generateImagesFromResponses "gemini" u n).1 = Except.ok imgs →
      imgs.length ≤ effectiveCount n) ∧
    (∀ e imgs, (strategyCallsOf u).imagesApi = Except.error e →
      (generateImagesFromResponses "auto" u n).1 = Except.ok imgs →
        imgs.length ≤ effectiveCount n) ∧
    (∀ imgs, (generateImagesFromResponses mode u n).1 = Except.ok imgs → imgs ≠ []) ∧
    (∀ data, (data.flatMap (parseImagesApiItem u.fetchUrl)).length = 0 →
      generateImagesViaImagesApi u.fetchUrl (HttpResponse.ok data) =
        Except.error UpstreamError.zeroImages) := by
  have hgem : ∀ i b, (strategyCallsOf u).gemini i = Except.ok b → b ≠ [] := by
    intro i b hb
    exact generateImagesViaGeminiNative_ok_ne_nil (u.gemini i) b hb
  have hcht : ∀ i b, (strategyCallsOf u).chat i = Except.ok b → b ≠ [] := by
    intro i b hb
    exact generateImagesViaChatCompletions_ok_ne_nil u.fetchUrl (u.chat i) b hb
  have hcnt : 1 ≤ effectiveCount n := (effectiveCount_bounds n).1
  refine ⟨?_, ?_, ?_, ?_, ?_⟩
  · intro h1 h2 h3 h4 imgs h
    rw [generateImagesFromResponses,
        generateImages_chatLike mode _ n h1 (by simp [h2, h3]) h4] at h
    dsimp only at h
    exact generateMultiple_fst_ok_length _ _ _ h
  · intro imgs h
    rw [generateImagesFromResponses, generateImages_gemini] at h
    dsimp only at h
    exact generateMultiple_fst_ok_length _ _ _ h
  · intro e imgs hapi h
    rw [generateImagesFromResponses, generateImages_auto] at h
    rcases generateWithFallback_fst_ok _ _ _ h with hc | hc | hc
    · rw [hapi] at hc
      exact absurd hc (by simp)
    · exact generateMultiple_fst_ok_length _ _ _ hc
    · exact generateMultiple_fst_ok_length _ _ _ hc
  · intro imgs h
    by_cases h1 : mode = "gemini"
    · subst h1
      rw [generateImagesFromResponses, generateImages_gemini] at h
      dsimp only at h
      exact generateMultiple_fst_ok_ne_nil _ _ hgem hcnt imgs h
    · by_cases h2 : mode = "openai" ∨ mode = "images"
      · rw [generateImagesFromResponses, generateImages_imagesLike mode _ n h1 h2] at h
        dsimp only at h
        exact generateImagesViaImagesApi_ok_ne_nil u.fetchUrl u.imagesApi imgs h
      · by_cases h4 : mode = "auto"
        · subst h4
          rw [generateImagesFromResponses, generateImages_auto] at h
          rcases generateWithFallback_fst_ok _ _ _ h with hc | hc | hc
          · exact generateImagesViaImagesApi_ok_ne_nil u.fetchUrl u.imagesApi imgs hc
          · exact generateMultiple_fst_ok_ne_nil _ _ hgem hcnt imgs hc
          · exact generateMultiple_fst_ok_ne_nil _ _ hcht hcnt imgs hc
        · rw [generateImagesFromResponses, generateImages_chatLike mode _ n h1 h2 h4] at h
          dsimp only at h
          exact generateMultiple_fst_ok_ne_nil _ _ hcht hcnt imgs h
  · intro data hz
    unfold generateImagesViaImagesApi
    dsimp only
    rw [if_pos hz]

/-- C2 witness: the amended bound applied on a concrete chat run at count 1. -/
theorem countSatisfactionAmended_witness :
    ∀ imgs, (generateImagesFromResponses "chat" uC2w 1).1 = Except.ok imgs →
      imgs.length ≤ effectiveCount 1 :=
  (countSatisfactionAmended "chat" uC2w 1).1 (by decide) (by decide) (by decide) (by decide)

/-- C7: with a chat endpoint returning exactly one image per call and count
3, generateImages makes exactly 3 calls and returns exactly those 3 images;
in general the loop makes at most count calls and a successful result has at
most count images. -/
theorem chatCountSatisfaction (s : StrategyCalls)
    (imgF : Nat → ImageResult)
    (hchat : ∀ i, s.chat i = Except.ok [imgF i]) :
    generateImages "chat" s 3 = (Except.ok [imgF 0, imgF 1, imgF 2], ⟨0, 0, 3⟩) ∧
    (∀ gen count, (generateMultiple gen count).2 ≤ count ∧
      ∀ imgs j, generateMultiple gen count = (Except.ok imgs, j) →
        imgs.length ≤ count) := by
  constructor
  · rw [generateImages_chatLike "chat" s 3 (by decide) (by decide) (by decide)]
    have hc : effectiveCount 3 = 3 := by decide
    rw [hc]
    have hrun : generateMultiple s.chat 3 = (Except.ok [imgF 0, imgF 1, imgF 2], 3) := by
      unfold generateMultiple
      unfold generateMultipleAux
      rw [hchat 0]
      dsimp only
      rw [if_neg (by simp)]
      unfold generateMultipleAux
      rw [hchat 1]
      dsimp only
      rw [if_neg (by simp)]
      unfold generateMultipleAux
      rw [hchat 2]
      dsimp only
      rw [if_pos (by simp)]
      simp [List.take]
    rw [hrun]
  · intro gen count
    exact ⟨generateMultiple_calls_le gen count,
      fun imgs j h => generateMultipleAux_ok_length gen count count 0 [] imgs j h⟩

/-- C7 witness: a concrete chat endpoint yielding one image per call, run at
count 3: exactly three calls, exactly three images. -/
theorem chatCountSatisfaction_witness :
    generateImages "chat" (strategyCallsOf uC7) 3 =
      (Except.ok [imgC7, imgC7, imgC7], ⟨0, 0, 3⟩) :=
  (chatCountSatisfaction (strategyCallsOf uC7) (fun _ => imgC7) (fun _ => rfl)).1

/-! Helper lemmas about the session store. -/

/-- Looking up the key just written returns the written value. -/
theorem assocGet_set_self {α : Type} (l : List (String × α)) (k : String) (v : α) :
    assocGet (assocSet l k v) k = some v := by
  simp [assocGet, assocSet, List.find?]

/-- The state-threading map preserves list length. -/
theorem mapState_fst_length {σ α β : Type} (f : σ → α → β × σ) :
    ∀ (l : List α) (st : σ), ((mapState f st l).1).length = l.length := by
  intro l
  induction l with
  | nil => intro st; rfl
  | cons a rest ih =>
    intro st
    rcases hf : f st a with ⟨b, st2⟩
    simp [mapState, hf, ih]

/-- extractMessageImages preserves the number of messages. -/
theorem extractMessageImages_fst_length (sessionId : String) (fs : FileStore)
    (messages : List Message) :
    ((extractMessageImages sessionId fs messages).1).length = messages.length := by
  unfold extractMessageImages
  exact mapState_fst_length _ _ _

/-- sliceLast keeps at most k elements. -/
theorem sliceLast_length_le {α : Type} (l : List α) (k : Nat) (h : k ≤ l.length) :
    (sliceLast l k).length = k := by
  simp [sliceLast]
  omega

/-- sliceLast is a suffix. -/
theorem sliceLast_suffix {α : Type} (l : List α) (k : Nat) : (sliceLast l k).IsSuffix l := by
  simpa [sliceLast] using List.drop_suffix (l.length - k) l

/-- sliceLast of a list already within the bound is the identity. -/
theorem sliceLast_of_le {α : Type} (l : List α) (k : Nat) (h : l.length ≤ k) :
    sliceLast l k = l := by
  simp [sliceLast, Nat.sub_eq_zero_of_le h]

/-- The messages produced by updateSession: the old history plus one or two
new messages, trimmed to the cap when it overflows. -/
theorem updateSession_messages (cfg : SessionConfig) (fs : FileStore) (session : Session)
    (userContent : MessageContent) (images : List ImageResult) (now : Int) :
    ∃ newMsgs : List Message, newMsgs ≠ [] ∧ newMsgs.length ≤ 2 ∧
      (updateSession cfg fs session userContent images now).1.messages =
        (if SESSION_MAX_HISTORY * 2 < (session.messages ++ newMsgs).length
         then sliceLast (session.messages ++ newMsgs) (SESSION_MAX_HISTORY * 2)
         else session.messages ++ newMsgs) := by
  cases images with
  | nil =>
    refine ⟨[{ role := "user", content := userContent }], by simp, by simp, ?_⟩
    rfl
  | cons firstImage rest =>
    refine ⟨[{ role := "user", content := userContent },
             { role := "assistant"
               content := MessageContent.parts
                 [ContentPart.text
                    ("[已生成 " ++ toString (firstImage :: rest).length ++ " 张图片]"),
                  ContentPart.image
                    ("data:" ++ firstImage.mimeType ++ ";base64," ++ firstImage.base64)] }],
           by simp, by simp, ?_⟩
    unfold updateSession
    simp [List.append_assoc]

/-- The message list after updateSession never exceeds the cap. -/
theorem updateSession_length_le (cfg : SessionConfig) (fs : FileStore) (session : Session)
    (userContent : MessageContent) (images : List ImageResult) (now : Int) :
    (updateSession cfg fs session userContent images now).1.messages.length ≤
      SESSION_MAX_HISTORY * 2 := by
  obtain ⟨newMsgs, -, -, hmsgs⟩ :=
    updateSession_messages cfg fs session userContent images now
  rw [hmsgs]
  by_cases hlt : SESSION_MAX_HISTORY * 2 < (session.messages ++ newMsgs).length
  · rw [if_pos hlt, sliceLast_length_le _ _ (by omega)]
  · rw [if_neg hlt]
    omega

/-- updateSession keeps the session id. -/
theorem updateSession_id (cfg : SessionConfig) (fs : FileStore) (session : Session)
    (userContent : MessageContent) (images : List ImageResult) (now : Int) :
    (updateSession cfg fs session userContent images now).1.id = session.id := by
  cases images <;> rfl

/-- The durable side of updateSession is exactly saveSessionToFile applied to
the updated session. -/
theorem updateSession_snd (cfg : SessionConfig) (fs : FileStore) (session : Session)
    (userContent : MessageContent) (images : List ImageResult) (now : Int) :
    (updateSession cfg fs session userContent images now).2 =
      saveSessionToFile cfg fs (updateSession cfg fs session userContent images now).1 := by
  cases images <;> rfl

/-- C5: after any update, the message list length never exceeds the cap (two
times the max-history-turns constant), and the kept messages are a suffix of
the old history extended by the new messages — the oldest entries are the
ones dropped. -/
theorem updateSessionCap (cfg : SessionConfig) (fs : FileStore) (session : Session)
    (userContent : MessageContent) (images : List ImageResult) (now : Int) :
    (updateSession cfg fs session userContent images now).1.messages.length ≤
      SESSION_MAX_HISTORY * 2 ∧
    ∃ newMsgs : List Message, newMsgs ≠ [] ∧ newMsgs.length ≤ 2 ∧
      (updateSession cfg fs session userContent images now).1.messages.IsSuffix
        (session.messages ++ newMsgs) := by
  refine ⟨updateSession_length_le cfg fs session userContent images now, ?_⟩
  obtain ⟨newMsgs, hne, hlen2, hmsgs⟩ :=
    updateSession_messages cfg fs session userContent images now
  refine ⟨newMsgs, hne, hlen2, ?_⟩
  rw [hmsgs]
  by_cases hlt : SESSION_MAX_HISTORY * 2 < (session.messages ++ newMsgs).length
  · rw [if_pos hlt]
    exact sliceLast_suffix _ _
  · rw [if_neg hlt]

/-- The session image path is never the empty string. -/
theorem getSessionImagePath_ne_empty (sessionId suffix : String) :
    getSessionImagePath sessionId suffix ≠ "" := by
  unfold getSessionImagePath
  intro h
  have hl := congrArg String.length h
  simp only [String.length_append] at hl
  have h1 : ("_" : String).length = 1 := by decide
  have h2 : (".png" : String).length = 4 := by decide
  have h3 : ("" : String).length = 0 := by decide
  omega

/-- Saving a bounded session under persistence and loading it back yields a
session with the same message count and the same lastImage MIME type. -/
theorem loadSessionFromFile_save (cfg : SessionConfig) (fs : FileStore) (s2 : Session)
    (hpersist : cfg.persist = true)
    (hlen : s2.messages.length ≤ SESSION_MAX_HISTORY * 2)
    (hmime : ∀ img, s2.lastImage = some img → img.mimeType ≠ "") :
    ∃ s3, loadSessionFromFile cfg (saveSessionToFile cfg fs s2) s2.id = some s3 ∧
      s3.messages.length = s2.messages.length ∧
      s3.lastImage.map ImageResult.mimeType = s2.lastImage.map ImageResult.mimeType := by
  have hpf : ¬ (cfg.persist = false) := by simp [hpersist]
  have hslice : sliceLast s2.messages (SESSION_MAX_HISTORY * 2) = s2.messages :=
    sliceLast_of_le _ _ hlen
  rcases hex : extractMessageImages s2.id fs s2.messages with ⟨processed, refs, fs1⟩
  have hplen : processed.length = s2.messages.length := by
    have := extractMessageImages_fst_length s2.id fs s2.messages
    rw [hex] at this
    exact this
  unfold saveSessionToFile
  rw [if_neg hpf]
  dsimp only
  rw [hslice, hex]
  dsimp only
  cases himg : s2.lastImage with
  | none =>
    unfold saveImageToFile
    rw [if_neg hpf]
    dsimp only
    unfold loadSessionFromFile
    rw [if_neg hpf]
    dsimp only
    rw [assocGet_set_self]
    dsimp only
    by_cases hre : refs.isEmpty
    · rw [if_pos hre]
      exact ⟨_, rfl, hplen, by simp⟩
    · rw [if_neg hre]
      refine ⟨_, rfl, ?_, by simp⟩
      simpa using hplen
  | some img =>
    have hm : img.mimeType ≠ "" := hmime img himg
    unfold saveImageToFile
    rw [if_neg hpf]
    dsimp only
    unfold loadSessionFromFile
    rw [if_neg hpf]
    dsimp only
    rw [assocGet_set_self]
    dsimp only
    unfold loadImageFromFile
    dsimp only
    rw [if_neg (getSessionImagePath_ne_empty s2.id "last")]
    rw [assocGet_set_self]
    dsimp only
    rw [if_neg hm]
    by_cases hre : refs.isEmpty
    · rw [if_pos hre]
      exact ⟨_, rfl, hplen, by simp⟩
    · rw [if_neg hre]
      refine ⟨_, rfl, ?_, by simp⟩
      simpa using hplen

/-- C6: performing update and then reloading the session from durable
storage yields a session with the same number of messages and a lastImage of
the same MIME type as the in-memory session after the update (given that the
stored image's MIME type is nonblank, as every image this program produces
is). -/
theorem updateReloadRoundTrip (cfg : SessionConfig) (fs : FileStore) (session : Session)
    (userContent : MessageContent) (images : List ImageResult) (now : Int)
    (hpersist : cfg.persist = true)
    (hmime : ∀ img,
      (updateSession cfg fs session userContent images now).1.lastImage = some img →
      img.mimeType ≠ "") :
    ∃ s3, loadSessionFromFile cfg (updateSession cfg fs session userContent images now).2
            session.id = some s3 ∧
      s3.messages.length =
        (updateSession cfg fs session userContent images now).1.messages.length ∧
      s3.lastImage.map ImageResult.mimeType =
        (updateSession cfg fs session userContent images now).1.lastImage.map
          ImageResult.mimeType := by
  rw [updateSession_snd]
  rw [show session.id = (updateSession cfg fs session userContent images now).1.id from
    (updateSession_id cfg fs session userContent images now).symm]
  exact loadSessionFromFile_save cfg fs _ hpersist
    (updateSession_length_le cfg fs session userContent images now) hmime

/-- C6 witness: a concrete update (user content with an input image, one
produced image) followed by a reload from durable storage. -/
theorem updateReloadRoundTrip_witness :
    ∃ s3, loadSessionFromFile cfgC4
            (updateSession cfgC4 { sessionFiles := [], imageFiles := [] } sessC6
              (buildUserContent "hi" (some imgC1)) [imgC6] 50).2 sessC6.id = some s3 ∧
      s3.messages.length =
        (updateSession cfgC4 { sessionFiles := [], imageFiles := [] } sessC6
          (buildUserContent "hi" (some imgC1)) [imgC6] 50).1.messages.length ∧
      s3.lastImage.map ImageResult.mimeType =
        (updateSession cfgC4 { sessionFiles := [], imageFiles := [] } sessC6
          (buildUserContent "hi" (some imgC1)) [imgC6] 50).1.lastImage.map
          ImageResult.mimeType :=
  updateReloadRoundTrip cfgC4 { sessionFiles := [], imageFiles := [] } sessC6
    (buildUserContent "hi" (some imgC1)) [imgC6] 50 rfl
    (by intro img h; cases h; decide)

/-- C4 counterexample: an in-memory session whose staleness exceeds the TTL
at the moment of the call is returned by getOrCreateSession with its old id,
instead of a brand-new session with a different id. -/
theorem getOrCreateExpiry_cex :
    cfgC4.ttlMs < 100 - sessC4.lastUsedAt ∧
    (getOrCreateSession cfgC4 stC4 (some "s1") 100 "fresh").1.id = sessC4.id ∧
    sessC4.id ≠ "fresh" := by
  refine ⟨by decide, ?_, by decide⟩
  decide

/-- C4 (amended): the expiry check applies only to the durable-storage load
path — an expired durable record is replaced by a brand-new session with the
freshly generated id, a fresh durable record is promoted with lastUsedAt
refreshed — while an in-memory hit is returned with lastUsedAt refreshed and
no expiry check at all. -/
theorem getOrCreateExpiryAmended (cfg : SessionConfig) (st : SessionStoreState)
    (sid : String) (now : Int) (newId : String) (hsid : sid ≠ "") :
    (∀ s0, assocGet st.mem sid = some s0 →
      (getOrCreateSession cfg st (some sid) now newId).1 = { s0 with lastUsedAt := now }) ∧
    (∀ fileSession, assocGet st.mem sid = none →
      loadSessionFromFile cfg st.files sid = some fileSession →
      cfg.ttlMs < now - fileSession.lastUsedAt →
      (getOrCreateSession cfg st (some sid) now newId).1 =
        { id := newId, messages := [], lastImage := none
          createdAt := now, lastUsedAt := now }) ∧
    (∀ fileSession, assocGet st.mem sid = none →
      loadSessionFromFile cfg st.files sid = some fileSession →
      now - fileSession.lastUsedAt ≤ cfg.ttlMs →
      (getOrCreateSession cfg st (some sid) now newId).1 =
        { fileSession with lastUsedAt := now }) := by
  have ht : truthyId (some sid) = some sid := by simp [truthyId, hsid]
  refine ⟨?_, ?_, ?_⟩
  · intro s0 hmem
    unfold getOrCreateSession
    rw [ht]
    dsimp only
    rw [hmem]
  · intro fileSession hmem hload hexp
    unfold getOrCreateSession
    rw [ht]
    dsimp only
    rw [hmem]
    dsimp only
    rw [hload]
    dsimp only
    rw [if_neg (by omega)]
  · intro fileSession hmem hload hfresh
    unfold getOrCreateSession
    rw [ht]
    dsimp only
    rw [hmem]
    dsimp only
    rw [hload]
    dsimp only
    rw [if_pos hfresh]

/-- C4 witness: a stale durable record is not returned — a fresh session
with the new id replaces it. -/
theorem getOrCreateExpiryAmended_witness :
    (getOrCreateSession cfgC4 stC4w (some "s2") 100 "fresh").1 =
      { id := "fresh", messages := [], lastImage := none
        createdAt := 100, lastUsedAt := 100 } :=
  (getOrCreateExpiryAmended cfgC4 stC4w "s2" 100 "fresh" (by decide)).2.1
    { id := "s2", messages := [], lastImage := none, createdAt := 0, lastUsedAt := 0 }
    (by decide) (by decide) (by decide)

/-- C3: when the adapter call fails, the handler propagates the typed error
and leaves the store exactly as it was after session resolution — no user
message, no assistant message, no lastImage change; and for a session that
was found in memory, the resolved session carries exactly the pre-call
message history and lastImage, and the post-resolution store maps its id to
that same session. -/
theorem failurePreservesSession (cfg : SessionConfig) (mode : String) (u : UpstreamResponses)
    (d : HandlerDefaults) (st : SessionStoreState) (args : GenerateArgs)
    (now : Int) (newId : String) (e : UpstreamError)
    (hp : parsePrompt args.prompt ≠ "")
    (hpic : d.picturesDir ≠ "")
    (he : (generateImagesFromResponses mode u (clampInt (parseIntOr args.n 1) 1 4)).1 =
      Except.error e) :
    handleGenerateImage cfg mode u d st args now newId =
      (Except.error e, (getOrCreateSession cfg st args.session_id now newId).2) ∧
    (∀ sid s0, args.session_id = some sid → sid ≠ "" → assocGet st.mem sid = some s0 →
      (getOrCreateSession cfg st args.session_id now newId).1.messages = s0.messages ∧
      (getOrCreateSession cfg st args.session_id now newId).1.lastImage = s0.lastImage ∧
      assocGet ((getOrCreateSession cfg st args.session_id now newId).2).mem sid =
        some ((getOrCreateSession cfg st args.session_id now newId).1)) := by
  rcases hgo : getOrCreateSession cfg st args.session_id now newId with ⟨session, st1⟩
  constructor
  · unfold handleGenerateImage
    dsimp only
    rw [if_neg hp, hgo]
    dsimp only
    have hcond : ¬ (parseOutput args.output d.defaultOutput = "path" ∧
        (if parseOutput args.output d.defaultOutput = "path" ∧
            resolveOutDir (args.outDir.getD d.defaultOutDir) = ""
         then d.picturesDir else resolveOutDir (args.outDir.getD d.defaultOutDir)) = "") := by
      rintro ⟨hout, hdir⟩
      by_cases h0 : resolveOutDir (args.outDir.getD d.defaultOutDir) = ""
      · rw [if_pos ⟨hout, h0⟩] at hdir
        exact hpic hdir
      · rw [if_neg (fun hc => h0 hc.2)] at hdir
        exact h0 hdir
    rw [if_neg hcond, he]
  · intro sid s0 hsidEq hsid hmem
    have ht : truthyId (some sid) = some sid := by simp [truthyId, hsid]
    rw [hsidEq] at hgo
    unfold getOrCreateSession at hgo
    rw [ht] at hgo
    dsimp only at hgo
    rw [hmem] at hgo
    dsimp only at hgo
    have hses : session = { s0 with lastUsedAt := now } := by
      have := congrArg Prod.fst hgo
      exact this.symm
    have hst1 : st1 = { st with mem := assocSet st.mem sid { s0 with lastUsedAt := now } } := by
      have := congrArg Prod.snd hgo
      exact this.symm
    subst hses
    subst hst1
    exact ⟨rfl, rfl, by rw [assocGet_set_self]⟩

/-- C3 witness: a concrete failing run — every strategy fails with 500 — on
a continuing in-memory session propagates the HttpError and leaves the store
exactly as resolved. -/
theorem failurePreservesSession_witness :
    handleGenerateImage cfgC3 "gemini" uC3 {} stC3 argsC3 100 "fresh" =
      (Except.error (UpstreamError.httpError 500),
       (getOrCreateSession cfgC3 stC3 argsC3.session_id 100 "fresh").2) :=
  (failurePreservesSession cfgC3 "gemini" uC3 {} stC3 argsC3 100 "fresh"
    (UpstreamError.httpError 500) (by decide) (by decide) (by decide)).1

/-- C9 counterexample: an out-of-range count (100) does not fail — the
handler silently clamps it to 4 and succeeds. -/
theorem invalidArgumentHandling_cex :
    (handleGenerateImage cfgC9 "gemini" uC9 {} stC9 argsC9 100 "fresh").1 =
      Except.ok (HandlerOutcome.success [imgC9, imgC9, imgC9, imgC9] "s9") ∧
    clampInt (parseIntOr (some 100) 1) 1 4 = 4 := by
  constructor
  · decide
  · decide

/-- C9 (amended): an empty prompt fails with the invalid-argument error and
leaves the store untouched, while the requested count is never rejected: it
is silently clamped into 1..4 before the adapter is invoked. -/
theorem invalidArgumentHandling (cfg : SessionConfig) (mode : String) (u : UpstreamResponses)
    (d : HandlerDefaults) (st : SessionStoreState) (args : GenerateArgs)
    (now : Int) (newId : String) :
    (parsePrompt args.prompt = "" →
      handleGenerateImage cfg mode u d st args now newId =
        (Except.ok (HandlerOutcome.errorText "参数 prompt 不能为空"), st)) ∧
    1 ≤ clampInt (parseIntOr args.n 1) 1 4 ∧
    clampInt (parseIntOr args.n 1) 1 4 ≤ 4 := by
  refine ⟨?_, ?_, ?_⟩
  · intro hp
    unfold handleGenerateImage
    dsimp only
    rw [if_pos hp]
  · rcases args.n with _ | k <;> simp [clampInt, parseIntOr]
  · rcases args.n with _ | k <;> simp [clampInt, parseIntOr]

/-- C9 witness: the empty-prompt error on a concrete call, plus the clamp
bounds at a concrete count. -/
theorem invalidArgumentHandling_witness :
    handleGenerateImage cfgC9 "gemini" uC9 {} stC9 { prompt := none } 100 "fresh" =
      (Except.ok (HandlerOutcome.errorText "参数 prompt 不能为空"), stC9) :=
  (invalidArgumentHandling cfgC9 "gemini" uC9 {} stC9 { prompt := none } 100 "fresh").1 rfl

/-- C10 counterexample: the empty string is an explicit image argument that
is neither a parseable data URL nor plausible base64, yet the request does
fall back to the continuing session's lastImage instead of resolving to no
input image (JS truthiness treats the empty string like a missing argument). -/
theorem inputImageResolution_cex :
    parseDataUrl "" = none ∧ isValidBase64 "" = false ∧
    parseInputImage (some "") false (some imgC10) = some imgC10 := by
  refine ⟨rfl, rfl, rfl⟩

/-- C10 (amended): a nonempty explicit image argument that is neither a
parseable data URL nor plausible base64 resolves to no input image (no
lastImage fallback, no failure); an absent or empty-string argument falls
back to lastImage exactly when the session is not newly created; and for any
nonempty explicit argument the resolution ignores the session entirely. -/
theorem inputImageResolutionAmended (imageArg : Option String) (isNew : Bool)
    (lastImage : Option ImageResult) :
    (∀ a, imageArg = some a → a ≠ "" → parseDataUrl a = none → isValidBase64 a = false →
      parseInputImage imageArg isNew lastImage = none) ∧
    ((imageArg = none ∨ imageArg = some "") →
      parseInputImage imageArg isNew lastImage =
        (if isNew = false then lastImage else none)) ∧
    (∀ a, imageArg = some a → a ≠ "" →
      parseInputImage imageArg isNew lastImage = parseInputImage (some a) true none) := by
  refine ⟨?_, ?_, ?_⟩
  · intro a ha hne hdu hb
    subst ha
    unfold parseInputImage
    dsimp only
    rw [if_pos hne, hdu]
    dsimp only
    rw [hb]
    simp
  · intro hcase
    rcases hcase with hnone | hempty
    · subst hnone
      rfl
    · subst hempty
      unfold parseInputImage
      dsimp only
      rw [if_neg (by simp)]
  · intro a ha hne
    subst ha
    unfold parseInputImage
    dsimp only
    rw [if_pos hne, if_pos hne]

/-- C10 witness: a garbage image argument resolves to none even though the
continuing session has a lastImage. -/
theorem inputImageResolutionAmended_witness :
    parseInputImage (some "!!!") false (some imgC10) = none :=
  (inputImageResolutionAmended (some "!!!") false (some imgC10)).1 "!!!" rfl
    (by decide) (by decide) (by decide)

/-- A first-match scan over the ratio table returns the unique entry within
tolerance, when there is exactly one. -/
theorem firstRatioMatch_eq_of_uniq :
    ∀ (l : List (ℚ × String)) (q r : ℚ) (v : String),
      (r, v) ∈ l → |q - r| < 1/10 →
      (∀ r2 v2, (r2, v2) ∈ l → |q - r2| < 1/10 → r2 = r ∧ v2 = v) →
      firstRatioMatch l q = some v := by
  intro l
  induction l with
  | nil =>
    intro q r v hmem
    simp at hmem
  | cons hd tl ih =>
    intro q r v hmem hclose huniq
    rcases hd with ⟨r0, v0⟩
    unfold firstRatioMatch
    by_cases h0 : |q - r0| < 1/10
    · rw [if_pos h0]
      have := huniq r0 v0 (List.mem_cons_self _ _) h0
      rw [this.2]
    · rw [if_neg h0]
      rcases List.mem_cons.1 hmem with heq | htl
      · exfalso
        rw [Prod.mk.injEq] at heq
        obtain ⟨h1, _⟩ := heq
        rw [← h1] at h0
        exact h0 hclose
      · exact ih q r v htl hclose
          (fun r2 v2 hm hc => huniq r2 v2 (List.mem_cons_of_mem _ hm) hc)

/-- C8 counterexample: for the well-formed input 7x10 (ratio 0.7), the entry
2:3 is within the 0.1 tolerance and strictly closer than 3:4, yet the code
returns 3:4, the first within-tolerance entry in table order — not the
nearest one. -/
theorem sizeToAspectRatio_cex :
    sizeToAspectRatio "7x10" = "3:4" ∧
    ((3 : ℚ)/4, "3:4") ∈ ratioMap ∧ ((2 : ℚ)/3, "2:3") ∈ ratioMap ∧
    |(7 : ℚ)/10 - 2/3| < |(7 : ℚ)/10 - 3/4| ∧ |(7 : ℚ)/10 - 2/3| < 1/10 := by
  refine ⟨?_, by simp [ratioMap], by simp [ratioMap], ?_, ?_⟩
  · unfold sizeToAspectRatio
    rw [if_neg (by decide), show parseSizeWH "7x10" = some (7, 10) from by decide]
    dsimp only
    unfold ratioMap firstRatioMatch
    rw [if_neg (by rw [abs_sub_lt_iff]; push_neg; intro h; norm_num at h ⊢)]
    unfold firstRatioMatch
    rw [if_neg (by rw [abs_sub_lt_iff]; push_neg; intro h; norm_num at h ⊢)]
    unfold firstRatioMatch
    rw [if_neg (by rw [abs_sub_lt_iff]; push_neg; intro h; norm_num at h ⊢)]
    unfold firstRatioMatch
    rw [if_neg (by rw [abs_sub_lt_iff]; push_neg; intro h; norm_num at h ⊢)]
    unfold firstRatioMatch
    rw [if_pos (by rw [abs_sub_lt_iff]; constructor <;> norm_num)]
    rfl
  · have h1 : |(7 : ℚ)/10 - 2/3| = 1/30 := by
      rw [abs_of_pos (by norm_num)]
      norm_num
    have h2 : |(7 : ℚ)/10 - 3/4| = 1/20 := by
      rw [abs_of_neg (by norm_num)]
      norm_num
    rw [h1, h2]
    norm_num
  · have h1 : |(7 : ℚ)/10 - 2/3| = 1/30 := by
      rw [abs_of_pos (by norm_num)]
      norm_num
    rw [h1]
    norm_num

/-- C8 (amended): for a well-formed WxH input, the translation picks the
first entry of the fixed table (in source order) whose ratio is within 0.1
of w/h; when exactly one entry lies within the tolerance, that entry is also
the strict distance minimizer, so first-match and nearest-match coincide. -/
theorem sizeToAspectRatioAmended (size : String) (w h : Nat) (q r : ℚ) (v : String)
    (hp : parseSizeWH size = some (w, h)) (hq : q = (w : ℚ) / (h : ℚ))
    (hmem : (r, v) ∈ ratioMap) (hclose : |q - r| < 1/10)
    (huniq : ∀ r2 v2, (r2, v2) ∈ ratioMap → |q - r2| < 1/10 → r2 = r ∧ v2 = v) :
    sizeToAspectRatio size = v ∧
    (∀ r2 v2, (r2, v2) ∈ ratioMap → r2 ≠ r → |q - r| < |q - r2|) := by
  constructor
  · have hne : size ≠ "" := by
      intro h0
      rw [h0, show parseSizeWH "" = none from rfl] at hp
      simp at hp
    unfold sizeToAspectRatio
    rw [if_neg hne, hp]
    dsimp only
    rw [← hq]
    rw [firstRatioMatch_eq_of_uniq ratioMap q r v hmem hclose huniq]
    rfl
  · intro r2 v2 hm2 hne2
    by_cases hc2 : |q - r2| < 1/10
    · exact absurd (huniq r2 v2 hm2 hc2).1 hne2
    · calc |q - r| < 1/10 := hclose
        _ ≤ |q - r2| := le_of_not_lt hc2

/-- C8 witness: 1024x1024 has ratio 1, within tolerance of exactly the 1:1
entry, and the translation returns 1:1. -/
theorem sizeToAspectRatioAmended_witness :
    sizeToAspectRatio "1024x1024" = "1:1" :=
  (sizeToAspectRatioAmended "1024x1024" 1024 1024 1 1 "1:1"
    (by decide) (by norm_num) (by simp [ratioMap]) (by norm_num)
    (by
      intro r2 v2 hm hc
      unfold ratioMap at hm
      fin_cases hm
      · exact ⟨rfl, rfl⟩
      all_goals rw [abs_sub_lt_iff] at hc
      all_goals obtain ⟨h1, h2⟩ := hc
      all_goals norm_num at h1 h2)).1

end GeminiImages
